import Mathlib

/-!
Shallow embedding of the Doro voice-assistant command interpreter.

The repository contains two variants of the interpreter `processCommand`:

* `src/Doro/App.js` — the contacts-enabled variant.  Rules: greeting,
  "call" (with a seven-digit phone-number classification and a
  name-filtered contact lookup), and a fixed fallback.
* `src/unnamed/part_000` — the basic variant.  Rules: greeting, "call"
  (dials whenever at least one digit remains), "open" (with YouTube and
  settings special cases), time, date, thanks, goodbye, and a fixed
  fallback.

Both are embedded below as pure functions from the utterance (plus the
external state each variant reads: contact-lookup results and the
contacts-permission flag for the first, the platform and the clock's
formatted time/date strings for the second) to a `CommandResult` holding
the response string and the at-most-one external action request.  The
side effects the JS code performs (`Linking.openURL`, `Linking.openSettings`)
are reified as `Action` values; the interim `setResponse`/`Speech.speak`
calls and the asynchronous failure callbacks of those external calls are
outside the interpreter's returned value, as the spec assigns them to the
caller.  JavaScript strings are modelled as Lean strings / `List Char`;
the case mapping is the ASCII one (every trigger phrase and response in
the source is ASCII).
-/

namespace Doro

/-- Models the JavaScript regular-expression line terminators, the
characters that `.` does not match: LF, CR, LS, PS. -/
def isLineTerminator (c : Char) : Bool :=
  c = Char.ofNat 10 || c = Char.ofNat 13 || c = Char.ofNat 0x2028 || c = Char.ofNat 0x2029

/-- Models the JavaScript `\s` character class: ASCII whitespace,
no-break space, the Unicode space separators, line/paragraph separators,
and the BOM. -/
def isJsWhitespace (c : Char) : Bool :=
  c = ' ' || c = Char.ofNat 9 || c = Char.ofNat 10 || c = Char.ofNat 13
  || c = Char.ofNat 11 || c = Char.ofNat 12 || c = Char.ofNat 0xa0
  || c = Char.ofNat 0x1680 || (Char.ofNat 0x2000 ≤ c && c ≤ Char.ofNat 0x200a)
  || c = Char.ofNat 0x2028 || c = Char.ofNat 0x2029 || c = Char.ofNat 0x202f
  || c = Char.ofNat 0x205f || c = Char.ofNat 0x3000 || c = Char.ofNat 0xfeff

/-- Models JavaScript `String.prototype.toLowerCase` on the ASCII
fragment (the only case mapping the interpreter's trigger phrases and
responses rely on); `Char.toLower` lowercases exactly the ASCII letters. -/
def toLowerJs (s : String) : String :=
  String.mk (s.toList.map Char.toLower)

/-- Decides whether `sub` occurs as a contiguous run somewhere in the
second list (left-to-right scan, like a substring search). -/
def containsSub (sub : List Char) : List Char → Bool
  | [] => sub.isEmpty
  | c :: rest => sub.isPrefixOf (c :: rest) || containsSub sub rest

/-- Models JavaScript `String.prototype.includes sub` (substring
containment) on the char-list view of the receiver. -/
def includesL (l : List Char) (sub : String) : Bool :=
  containsSub sub.toList l

/-- Models JavaScript `String.prototype.trim`: drop leading and trailing
whitespace (JS trims the `\s` class together with line terminators, all
of which `isJsWhitespace` contains). -/
def jsTrim (l : List Char) : List Char :=
  ((l.dropWhile isJsWhitespace).reverse.dropWhile isJsWhitespace).reverse

/-- Models `target.replace(/\D/g, '')`: keep only the decimal digits. -/
def stripNonDigits (l : List Char) : List Char :=
  l.filter Char.isDigit

/-- Models `/^\d+$/.test s`: `s` is nonempty and consists only of
decimal digits. -/
def allDigitsTest (l : List Char) : Bool :=
  !l.isEmpty && l.all Char.isDigit

/-- Models the `(.+)` tail of the capture patterns: the (greedy) maximal
nonempty run of non-line-terminator characters at the head of the input;
`none` when that run is empty. -/
def dotPlusCapture (l : List Char) : Option (List Char) :=
  let cap := l.takeWhile (fun c => !isLineTerminator c)
  if cap.isEmpty then none else some cap

/-- Models `\s*(.+)` anchored at the head of the input, with the regex
engine's greedy-plus-backtracking order: prefer to extend the whitespace
run, fall back to starting the capture earlier. -/
def wsStarCapture : List Char → Option (List Char)
  | [] => none
  | c :: rest =>
    if isJsWhitespace c then
      match wsStarCapture rest with
      | some cap => some cap
      | none => dotPlusCapture (c :: rest)
    else
      dotPlusCapture (c :: rest)

/-- Models `\s+(.+)` anchored at the head of the input: one mandatory
whitespace character, then `\s*(.+)`. -/
def wsPlusCapture : List Char → Option (List Char)
  | [] => none
  | c :: rest => if isJsWhitespace c then wsStarCapture rest else none

/-- Models `str.match(/<trigger>\s+(.+)/)`, returning capture group 1 of
the first match: scan start positions left to right; at each position the
literal trigger must match, followed by `\s+(.+)`. -/
def scanCapture (trigger : List Char) : List Char → Option (List Char)
  | [] => none
  | c :: rest =>
    match (if trigger.isPrefixOf (c :: rest) then
             wsPlusCapture ((c :: rest).drop trigger.length)
           else none) with
    | some cap => some cap
    | none => scanCapture trigger rest

/-- The single external action request an interpreter invocation can
issue; reifies the `Linking` calls made from `processCommand`. -/
inductive Action where
  /-- no external action is requested -/
  | none : Action
  /-- models `Linking.openURL('tel:' + number)` -/
  | dial (number : String) : Action
  /-- models `Linking.openURL url`, with `fallback` the URL opened by the
  attached `.catch` handler when the first open fails, if any -/
  | openUrl (url : String) (fallback : Option String) : Action
  /-- models `Linking.openSettings()` -/
  | openSettings : Action
  deriving DecidableEq

/-- The interpreter's outcome: the response string finally stored by
`setResponse(newResponse)` (and spoken), and the action request. -/
structure CommandResult where
  response : String
  action : Action
  deriving DecidableEq

/-- Models `Platform.OS` as the interpreter consults it (the
`=== 'android'` test). -/
inductive PlatformOS where
  | android : PlatformOS
  | ios : PlatformOS
  deriving DecidableEq

/-- Models one contact record as the contacts-enabled variant reads it: a
`name` and the `number` fields of its `phoneNumbers` entries (an absent
`phoneNumbers` field and an empty list take the same branch in the code
and are both modelled by `[]`). -/
structure Contact where
  name : String
  phoneNumbers : List String
  deriving DecidableEq

/-- The external state the contacts-enabled variant reads: the
`contactsPermissionGranted` flag and the name-filtered
`Contacts.getContactsAsync` lookup, whose thrown error (with its
`message`) is modelled by `Except.error`. -/
structure ContactsEnv where
  contactsPermissionGranted : Bool
  getContacts : String → Except String (List Contact)

/-- Models the contact-name resolution block of `src/Doro/App.js`
(lines 312–340): look the literal target up, take the first result's
first phone number if both exist, otherwise explain; a thrown lookup
error becomes the error response.  The interim "Searching for …"
display and speech are caller-side effects outside the returned pair. -/
def resolveContactByName (env : ContactsEnv) (target : String) : CommandResult :=
  match env.getContacts target with
  | .error msg =>
    ⟨"An error occurred while searching contacts: " ++ msg ++ ".", .none⟩
  | .ok data =>
    match data with
    | [] =>
      ⟨"Could not find a contact named " ++ target
        ++ ". Please try again or say the number.", .none⟩
    | foundContact :: _ =>
      match foundContact.phoneNumbers with
      | [] =>
        ⟨"Found " ++ foundContact.name ++ ", but no phone number available.",
         .none⟩
      | numberToCall :: _ =>
        ⟨"Found " ++ foundContact.name ++ ". Calling " ++ numberToCall
          ++ "... (Opening dialer. Please tap \x27Call\x27 to confirm.)",
         .dial numberToCall⟩

/-- Models the `call` branch of `src/Doro/App.js` `processCommand`
(lines 286–351), applied to the lowercased command. -/
def contactsCallRule (env : ContactsEnv) (lowerCmd : List Char) : CommandResult :=
  match scanCapture "call".toList lowerCmd with
  | some cap =>
    if cap.isEmpty then
      ⟨"Whom would you like me to call? Please say \x22call [name or number]\x22.",
       .none⟩
    else
      let target := String.mk (jsTrim cap)
      let phoneNumberDigits := stripNonDigits (jsTrim cap)
      if 7 ≤ phoneNumberDigits.length ∧ allDigitsTest phoneNumberDigits = true then
        ⟨"Attempting to call " ++ target
          ++ "... (Opening dialer. Please tap \x27Call\x27 to confirm.)",
         .dial (String.mk phoneNumberDigits)⟩
      else if env.contactsPermissionGranted then
        resolveContactByName env target
      else
        ⟨"To call by name, I need contacts permission. Please enable it in settings.",
         .none⟩
  | none =>
    ⟨"Whom would you like me to call? Please say \x22call [name or number]\x22.",
     .none⟩

/-- Models `processCommand` of `src/Doro/App.js` (lines 280–365), the
contacts-enabled variant, as a pure function of the utterance and the
external contacts state. -/
def processCommandContacts (env : ContactsEnv) (cmd : String) : CommandResult :=
  let lowerCmd := (toLowerJs cmd).toList
  if includesL lowerCmd "hello" || includesL lowerCmd "hi doro" then
    ⟨"Hello there! How can I assist you?", .none⟩
  else if includesL lowerCmd "call" then
    contactsCallRule env lowerCmd
  else
    ⟨"I\x27m currently focused on making calls. How can I help you with a call?",
     .none⟩

/-- Models the `call` branch of `src/unnamed/part_000` `processCommand`
(lines 111–132), applied to the lowercased command. -/
def basicCallRule (lowerCmd : List Char) : CommandResult :=
  match scanCapture "call".toList lowerCmd with
  | some cap =>
    if cap.isEmpty then
      ⟨"Whom would you like me to call? Please say \x22call [name or number]\x22.",
       .none⟩
    else
      let contact := String.mk (jsTrim cap)
      let phoneNumber := stripNonDigits (jsTrim cap)
      if 0 < phoneNumber.length then
        ⟨"Attempting to call " ++ contact
          ++ "... (This will open your phone\x27s dialer if a number is detected.)",
         .dial (String.mk phoneNumber)⟩
      else
        ⟨"Could not find a valid number for " ++ contact
          ++ ". Please specify a number or a contact with a known number.",
         .none⟩
  | none =>
    ⟨"Whom would you like me to call? Please say \x22call [name or number]\x22.",
     .none⟩

/-- Models the `open` branch of `src/unnamed/part_000` `processCommand`
(lines 133–159), applied to the lowercased command. -/
def basicOpenRule (platform : PlatformOS) (lowerCmd : List Char) : CommandResult :=
  match scanCapture "open".toList lowerCmd with
  | some cap =>
    if cap.isEmpty then
      ⟨"Which application would you like me to open? Please say \x22open [app name]\x22.",
       .none⟩
    else
      let appName := jsTrim cap
      let base := "Simulating opening " ++ String.mk appName
        ++ "... (Actual app launch depends on deep link availability.)"
      if includesL appName "youtube" then
        ⟨base, .openUrl "vnd.youtube://" (some "https://m.youtube.com")⟩
      else if includesL appName "settings" then
        match platform with
        | .android => ⟨base, .openSettings⟩
        | .ios =>
          ⟨base ++ " Opening settings is not directly supported on iOS via deep link.",
           .none⟩
      else
        ⟨base ++ " I can only simulate opening common apps or use specific deep links.",
         .none⟩
  | none =>
    ⟨"Which application would you like me to open? Please say \x22open [app name]\x22.",
     .none⟩

/-- Models `processCommand` of `src/unnamed/part_000` (lines 105–181),
the basic variant, as a pure function of the utterance, the platform, and
the clock's formatted time and date strings (`toLocaleTimeString` and
`toLocaleDateString` of the `new Date()` the rules read). -/
def processCommandBasic (platform : PlatformOS) (timeStr dateStr : String)
    (cmd : String) : CommandResult :=
  let lowerCmd := (toLowerJs cmd).toList
  if includesL lowerCmd "hello" || includesL lowerCmd "hi doro" then
    ⟨"Hello there! How can I assist you?", .none⟩
  else if includesL lowerCmd "call" then
    basicCallRule lowerCmd
  else if includesL lowerCmd "open" then
    basicOpenRule platform lowerCmd
  else if includesL lowerCmd "what is the time" || includesL lowerCmd "current time" then
    ⟨"The current time is " ++ timeStr ++ ".", .none⟩
  else if includesL lowerCmd "what is the date" || includesL lowerCmd "current date" then
    ⟨"Today\x27s date is " ++ dateStr ++ ".", .none⟩
  else if includesL lowerCmd "thank you" || includesL lowerCmd "thanks" then
    ⟨"You\x27re welcome! Is there anything else?", .none⟩
  else if includesL lowerCmd "goodbye" || includesL lowerCmd "bye" then
    ⟨"Goodbye! Have a great day!", .none⟩
  else
    ⟨"I\x27m not sure how to handle that command. Can you please rephrase?", .none⟩

/-- An external contacts state whose lookup finds no contact. -/
def envEmpty : ContactsEnv :=
  ⟨true, fun _ => .ok []⟩

/-- An external contacts state with the permission flag cleared. -/
def envDenied : ContactsEnv :=
  ⟨false, fun _ => .ok []⟩

/-- An external contacts state whose lookup finds one contact with two
phone numbers. -/
def envBob : ContactsEnv :=
  ⟨true, fun _ => .ok [⟨"Bob Jones", ["555-0100", "555-9999"]⟩]⟩

/-- An external contacts state whose lookup finds one contact that has no
phone number. -/
def envNoNumber : ContactsEnv :=
  ⟨true, fun _ => .ok [⟨"Ann Lee", []⟩]⟩


/-! ## Helper lemmas -/

/-- A nonempty stripped digit string passes the `/^\d+$/` test: stripping
keeps only digits, so the test reduces to nonemptiness. -/
theorem allDigitsTest_stripNonDigits (l : List Char)
    (h : 0 < (stripNonDigits l).length) :
    allDigitsTest (stripNonDigits l) = true := by
  have h1 : (stripNonDigits l).all Char.isDigit = true := by
    rw [List.all_eq_true]
    intro a ha
    unfold stripNonDigits at ha
    exact List.of_mem_filter ha
  have h2 : (stripNonDigits l).isEmpty = false := by
    cases hl : stripNonDigits l with
    | nil => rw [hl] at h; simp at h
    | cons x xs => rfl
  unfold allDigitsTest
  rw [h1, h2]
  rfl

/-- Reduction of the contacts-enabled interpreter to its `call` branch
when the greeting rule does not fire and the command contains `call`. -/
theorem processCommandContacts_call (env : ContactsEnv) (cmd : String)
    (hg : (includesL (toLowerJs cmd).toList "hello"
           || includesL (toLowerJs cmd).toList "hi doro") = false)
    (hc : includesL (toLowerJs cmd).toList "call" = true) :
    processCommandContacts env cmd = contactsCallRule env (toLowerJs cmd).toList := by
  simp only [processCommandContacts, hg, hc, Bool.false_eq_true, if_false, if_true]

/-- Reduction of the basic interpreter to its `call` branch when the
greeting rule does not fire and the command contains `call`. -/
theorem processCommandBasic_call (p : PlatformOS) (t d : String) (cmd : String)
    (hg : (includesL (toLowerJs cmd).toList "hello"
           || includesL (toLowerJs cmd).toList "hi doro") = false)
    (hc : includesL (toLowerJs cmd).toList "call" = true) :
    processCommandBasic p t d cmd = basicCallRule (toLowerJs cmd).toList := by
  simp only [processCommandBasic, hg, hc, Bool.false_eq_true, if_false, if_true]

/-- Reduction of the contacts-enabled `call` branch once the capture is
known: what remains is the phone-number-versus-name classification. -/
theorem contactsCallRule_capture (env : ContactsEnv) (l cap : List Char)
    (hs : scanCapture "call".toList l = some cap)
    (hne : cap.isEmpty = false) :
    contactsCallRule env l
      = (if 7 ≤ (stripNonDigits (jsTrim cap)).length
            ∧ allDigitsTest (stripNonDigits (jsTrim cap)) = true then
           ⟨"Attempting to call " ++ String.mk (jsTrim cap)
             ++ "... (Opening dialer. Please tap \x27Call\x27 to confirm.)",
            .dial (String.mk (stripNonDigits (jsTrim cap)))⟩
         else if env.contactsPermissionGranted then
           resolveContactByName env (String.mk (jsTrim cap))
         else
           ⟨"To call by name, I need contacts permission. Please enable it in settings.",
            .none⟩) := by
  unfold contactsCallRule
  rw [hs]
  simp only [hne, Bool.false_eq_true, if_false]

/-- Reduction of the basic `call` branch once the capture is known: what
remains is the any-digit test. -/
theorem basicCallRule_capture (l cap : List Char)
    (hs : scanCapture "call".toList l = some cap)
    (hne : cap.isEmpty = false) :
    basicCallRule l
      = (if 0 < (stripNonDigits (jsTrim cap)).length then
           ⟨"Attempting to call " ++ String.mk (jsTrim cap)
             ++ "... (This will open your phone\x27s dialer if a number is detected.)",
            .dial (String.mk (stripNonDigits (jsTrim cap)))⟩
         else
           ⟨"Could not find a valid number for " ++ String.mk (jsTrim cap)
             ++ ". Please specify a number or a contact with a known number.",
            .none⟩) := by
  unfold basicCallRule
  rw [hs]
  simp only [hne, Bool.false_eq_true, if_false]


/-! ## Claim C3 -/

/-- Claim C3: every utterance whose lowercasing contains "hello" or
"hi doro" — even one that also contains the "call" or "open" triggers —
gets the greeting response and no action from both interpreter variants,
because the greeting rule is tested first and the first matching rule
wins. -/
theorem claim3_greeting_first (cmd : String) (env : ContactsEnv)
    (p : PlatformOS) (t d : String)
    (hg : (includesL (toLowerJs cmd).toList "hello"
           || includesL (toLowerJs cmd).toList "hi doro") = true) :
    processCommandContacts env cmd
      = ⟨"Hello there! How can I assist you?", .none⟩ ∧
    processCommandBasic p t d cmd
      = ⟨"Hello there! How can I assist you?", .none⟩ := by
  constructor
  · simp only [processCommandContacts, hg, if_true]
  · simp only [processCommandBasic, hg, if_true]

/-- Concrete instance of C3 at an utterance that also contains the
`call` and `open` triggers. -/
theorem claim3_greeting_first_witness :
    processCommandContacts envEmpty "Hello, call 5551234567 and open youtube"
      = ⟨"Hello there! How can I assist you?", .none⟩ ∧
    processCommandBasic .android "t" "d" "Hello, call 5551234567 and open youtube"
      = ⟨"Hello there! How can I assist you?", .none⟩ :=
  claim3_greeting_first "Hello, call 5551234567 and open youtube" envEmpty
    .android "t" "d" (by decide)

/-! ## Claim C7 -/

/-- Claim C7: in the variant with the `open` rule, the utterance
"open youtube" produces the YouTube deep-link open action; the action
carries the web URL that the attached failure handler opens as fallback
when the deep link fails. -/
theorem claim7_open_youtube (p : PlatformOS) (t d : String) :
    processCommandBasic p t d "open youtube"
      = ⟨"Simulating opening youtube... (Actual app launch depends on deep link availability.)",
         .openUrl "vnd.youtube://" (some "https://m.youtube.com")⟩ := by
  cases p <;> rfl

/-! ## Claim C2 -/

/-- Claim C2 as stated is refuted: on an utterance matching no rule the
contacts-enabled variant returns its own fixed fallback string, which is
not (and does not even contain) the quoted "I'm not sure how to handle
that…" fallback; that string belongs to the basic variant only. -/
theorem claim2_counterexample :
    (processCommandContacts envEmpty "abracadabra").response
      = "I\x27m currently focused on making calls. How can I help you with a call?"
    ∧ (processCommandContacts envEmpty "abracadabra").response
        ≠ "I\x27m not sure how to handle that command. Can you please rephrase?"
    ∧ includesL ((processCommandContacts envEmpty "abracadabra").response).toList
        "not sure how to handle that" = false
    ∧ (processCommandContacts envEmpty "abracadabra").action = Action.none := by
  decide

/-- Claim C2 as amended: an utterance matching none of a variant's rules
gets that variant's fixed fallback response and no action — the basic
variant's fallback is "I'm not sure how to handle that command. Can you
please rephrase?", while the contacts-enabled variant's fallback is
"I'm currently focused on making calls. How can I help you with a
call?". -/
theorem claim2_fallback (cmd : String) (env : ContactsEnv)
    (p : PlatformOS) (t d : String)
    (h1 : includesL (toLowerJs cmd).toList "hello" = false)
    (h2 : includesL (toLowerJs cmd).toList "hi doro" = false)
    (h3 : includesL (toLowerJs cmd).toList "call" = false) :
    processCommandContacts env cmd
      = ⟨"I\x27m currently focused on making calls. How can I help you with a call?",
         .none⟩ ∧
    (includesL (toLowerJs cmd).toList "open" = false →
     includesL (toLowerJs cmd).toList "what is the time" = false →
     includesL (toLowerJs cmd).toList "current time" = false →
     includesL (toLowerJs cmd).toList "what is the date" = false →
     includesL (toLowerJs cmd).toList "current date" = false →
     includesL (toLowerJs cmd).toList "thank you" = false →
     includesL (toLowerJs cmd).toList "thanks" = false →
     includesL (toLowerJs cmd).toList "goodbye" = false →
     includesL (toLowerJs cmd).toList "bye" = false →
     processCommandBasic p t d cmd
       = ⟨"I\x27m not sure how to handle that command. Can you please rephrase?",
          .none⟩) := by
  constructor
  · simp only [processCommandContacts, h1, h2, h3, Bool.or_self,
      Bool.false_eq_true, if_false]
  · intro h4 h5 h6 h7 h8 h9 h10 h11 h12
    simp only [processCommandBasic, h1, h2, h3, h4, h5, h6, h7, h8, h9, h10,
      h11, h12, Bool.or_self, Bool.false_eq_true, if_false]

/-- Concrete instance of the amended C2 at an utterance matching no rule
in either variant. -/
theorem claim2_fallback_witness :
    processCommandContacts envEmpty "abracadabra"
      = ⟨"I\x27m currently focused on making calls. How can I help you with a call?",
         .none⟩ ∧
    processCommandBasic .android "t" "d" "abracadabra"
      = ⟨"I\x27m not sure how to handle that command. Can you please rephrase?",
         .none⟩ := by
  have h := claim2_fallback "abracadabra" envEmpty .android "t" "d"
    (by decide) (by decide) (by decide)
  exact ⟨h.1, h.2 (by decide) (by decide) (by decide) (by decide) (by decide)
    (by decide) (by decide) (by decide) (by decide)⟩

/-! ## Claim C5 -/

/-- Claim C5: the interpreter is a total function into response/action
pairs (it is embedded here as one, raising nothing), and a `call` or
`open` invocation whose regex captures no argument text yields the
corresponding clarifying prompt with no action, in both variants. -/
theorem claim5_missing_argument (cmd : String) (env : ContactsEnv)
    (p : PlatformOS) (t d : String)
    (hg : (includesL (toLowerJs cmd).toList "hello"
           || includesL (toLowerJs cmd).toList "hi doro") = false) :
    (includesL (toLowerJs cmd).toList "call" = true →
     scanCapture "call".toList (toLowerJs cmd).toList = none →
       processCommandContacts env cmd
         = ⟨"Whom would you like me to call? Please say \x22call [name or number]\x22.",
            .none⟩ ∧
       processCommandBasic p t d cmd
         = ⟨"Whom would you like me to call? Please say \x22call [name or number]\x22.",
            .none⟩) ∧
    (includesL (toLowerJs cmd).toList "call" = false →
     includesL (toLowerJs cmd).toList "open" = true →
     scanCapture "open".toList (toLowerJs cmd).toList = none →
       processCommandBasic p t d cmd
         = ⟨"Which application would you like me to open? Please say \x22open [app name]\x22.",
            .none⟩) := by
  constructor
  · intro hc hs
    constructor
    · rw [processCommandContacts_call env cmd hg hc]
      unfold contactsCallRule
      rw [hs]
    · rw [processCommandBasic_call p t d cmd hg hc]
      unfold basicCallRule
      rw [hs]
  · intro hc ho hs
    simp only [processCommandBasic, hg, hc, ho, Bool.false_eq_true, if_false,
      if_true]
    unfold basicOpenRule
    rw [hs]

/-- Concrete instance of C5: the bare utterance "call" (no argument)
yields the clarifying prompt in both variants. -/
theorem claim5_missing_argument_witness :
    processCommandContacts envEmpty "call"
      = ⟨"Whom would you like me to call? Please say \x22call [name or number]\x22.",
         .none⟩ ∧
    processCommandBasic .android "t" "d" "call"
      = ⟨"Whom would you like me to call? Please say \x22call [name or number]\x22.",
         .none⟩ :=
  (claim5_missing_argument "call" envEmpty .android "t" "d" (by decide)).1
    (by decide) (by decide)


/-! ## Claim C1 -/

/-- Claim C1 as stated is refuted: in the basic variant the utterance
"call x1" leaves only the single digit "1" after stripping — fewer than
seven digits — yet a dial action carrying "1" is requested, because the
basic variant dials whenever at least one digit remains. -/
theorem claim1_counterexample :
    (processCommandBasic .android "t" "d" "call x1").action = Action.dial "1"
    ∧ (stripNonDigits (jsTrim ("x1".toList))).length < 7 := by
  decide

/-- Claim C1 as amended: for a `call <rest>` utterance (greeting rule not
firing, nonempty capture), the at-least-seven-digits classification
governs the contacts-enabled variant only: it dials exactly when the
stripped digit string of the trimmed target has at least seven digits,
the dial carrying that stripped digit string, and otherwise treats the
target as a contact name (external lookup when permission is granted, a
permission prompt otherwise).  The basic variant instead dials exactly
when at least one digit remains, also carrying the stripped digit
string, and with no digits explains that no valid number was found. -/
theorem claim1_phone_classification (cmd : String) (env : ContactsEnv)
    (p : PlatformOS) (t d : String) (cap : List Char)
    (hg : (includesL (toLowerJs cmd).toList "hello"
           || includesL (toLowerJs cmd).toList "hi doro") = false)
    (hc : includesL (toLowerJs cmd).toList "call" = true)
    (hs : scanCapture "call".toList (toLowerJs cmd).toList = some cap)
    (hne : cap.isEmpty = false) :
    (7 ≤ (stripNonDigits (jsTrim cap)).length →
       processCommandContacts env cmd
         = ⟨"Attempting to call " ++ String.mk (jsTrim cap)
             ++ "... (Opening dialer. Please tap \x27Call\x27 to confirm.)",
            .dial (String.mk (stripNonDigits (jsTrim cap)))⟩) ∧
    ((stripNonDigits (jsTrim cap)).length < 7 →
       processCommandContacts env cmd
         = (if env.contactsPermissionGranted then
              resolveContactByName env (String.mk (jsTrim cap))
            else
              ⟨"To call by name, I need contacts permission. Please enable it in settings.",
               .none⟩)) ∧
    (0 < (stripNonDigits (jsTrim cap)).length →
       processCommandBasic p t d cmd
         = ⟨"Attempting to call " ++ String.mk (jsTrim cap)
             ++ "... (This will open your phone\x27s dialer if a number is detected.)",
            .dial (String.mk (stripNonDigits (jsTrim cap)))⟩) ∧
    ((stripNonDigits (jsTrim cap)).length = 0 →
       processCommandBasic p t d cmd
         = ⟨"Could not find a valid number for " ++ String.mk (jsTrim cap)
             ++ ". Please specify a number or a contact with a known number.",
            .none⟩) := by
  rw [processCommandContacts_call env cmd hg hc,
      contactsCallRule_capture env _ cap hs hne,
      processCommandBasic_call p t d cmd hg hc,
      basicCallRule_capture _ cap hs hne]
  refine ⟨?_, ?_, ?_, ?_⟩
  · intro h7
    rw [if_pos ⟨h7, allDigitsTest_stripNonDigits _ (by omega)⟩]
  · intro hlt
    rw [if_neg (fun hand => absurd hand.1 (by omega))]
  · intro hpos
    rw [if_pos hpos]
  · intro hzero
    rw [if_neg (by omega)]

/-- Concrete instance of the amended C1: "call 555-123-4567" strips to
ten digits, so the contacts-enabled variant dials the stripped string. -/
theorem claim1_phone_classification_witness :
    processCommandContacts envEmpty "call 555-123-4567"
      = ⟨"Attempting to call 555-123-4567... (Opening dialer. Please tap \x27Call\x27 to confirm.)",
         .dial "5551234567"⟩ :=
  (claim1_phone_classification "call 555-123-4567" envEmpty .android "t" "d"
      ("555-123-4567".toList) (by decide) (by decide) (by decide) (by decide)).1
    (by decide)

/-! ## Claim C4 -/

/-- Claim C4: in the contacts-enabled variant, a `call` target classified
as a name (fewer than seven stripped digits) with contacts permission
granted is resolved through the name-filtered lookup: the first result's
first phone number is dialled; an empty result, or a first result with no
phone number, yields an explanatory response with no action. -/
theorem claim4_contact_resolution (cmd : String) (env : ContactsEnv)
    (cap : List Char)
    (hg : (includesL (toLowerJs cmd).toList "hello"
           || includesL (toLowerJs cmd).toList "hi doro") = false)
    (hc : includesL (toLowerJs cmd).toList "call" = true)
    (hs : scanCapture "call".toList (toLowerJs cmd).toList = some cap)
    (hne : cap.isEmpty = false)
    (hlen : (stripNonDigits (jsTrim cap)).length < 7)
    (hperm : env.contactsPermissionGranted = true) :
    (env.getContacts (String.mk (jsTrim cap)) = .ok [] →
       processCommandContacts env cmd
         = ⟨"Could not find a contact named " ++ String.mk (jsTrim cap)
             ++ ". Please try again or say the number.", .none⟩) ∧
    (∀ c cs, env.getContacts (String.mk (jsTrim cap)) = .ok (c :: cs) →
       (c.phoneNumbers = [] →
          processCommandContacts env cmd
            = ⟨"Found " ++ c.name ++ ", but no phone number available.",
               .none⟩) ∧
       (∀ n ns, c.phoneNumbers = n :: ns →
          processCommandContacts env cmd
            = ⟨"Found " ++ c.name ++ ". Calling " ++ n
                ++ "... (Opening dialer. Please tap \x27Call\x27 to confirm.)",
               .dial n⟩)) := by
  rw [processCommandContacts_call env cmd hg hc,
      contactsCallRule_capture env _ cap hs hne,
      if_neg (fun hand => absurd hand.1 (by omega)), if_pos hperm]
  constructor
  · intro hok
    simp only [resolveContactByName, hok]
  · intro c cs hok
    constructor
    · intro hnil
      simp only [resolveContactByName, hok, hnil]
    · intro n ns hcons
      simp only [resolveContactByName, hok, hcons]

/-- Concrete instance of C4: with a lookup returning one contact holding
two numbers, "call bob" dials the first number of that first contact. -/
theorem claim4_contact_resolution_witness :
    processCommandContacts envBob "call bob"
      = ⟨"Found Bob Jones. Calling 555-0100... (Opening dialer. Please tap \x27Call\x27 to confirm.)",
         .dial "555-0100"⟩ :=
  ((claim4_contact_resolution "call bob" envBob ("bob".toList)
      (by decide) (by decide) (by decide) (by decide) (by decide) rfl).2
    ⟨"Bob Jones", ["555-0100", "555-9999"]⟩ [] rfl).2 "555-0100" ["555-9999"] rfl

/-! ## Claim C6 -/

/-- Claim C6: a `call` target that the variant classifies as a name, with
contact resolution unavailable, yields a permission or clarification
response and no action: the contacts-enabled variant (fewer than seven
stripped digits, permission flag cleared) asks for contacts permission;
the basic variant, which has no contacts access and classifies a target
as non-numeric when no digit remains, asks for a number or a contact
with a known number. -/
theorem claim6_name_unavailable (cmd : String) (env : ContactsEnv)
    (p : PlatformOS) (t d : String) (cap : List Char)
    (hg : (includesL (toLowerJs cmd).toList "hello"
           || includesL (toLowerJs cmd).toList "hi doro") = false)
    (hc : includesL (toLowerJs cmd).toList "call" = true)
    (hs : scanCapture "call".toList (toLowerJs cmd).toList = some cap)
    (hne : cap.isEmpty = false) :
    ((stripNonDigits (jsTrim cap)).length < 7 →
     env.contactsPermissionGranted = false →
       processCommandContacts env cmd
         = ⟨"To call by name, I need contacts permission. Please enable it in settings.",
            .none⟩) ∧
    ((stripNonDigits (jsTrim cap)).length = 0 →
       processCommandBasic p t d cmd
         = ⟨"Could not find a valid number for " ++ String.mk (jsTrim cap)
             ++ ". Please specify a number or a contact with a known number.",
            .none⟩) := by
  constructor
  · intro hlt hperm
    rw [processCommandContacts_call env cmd hg hc,
        contactsCallRule_capture env _ cap hs hne,
        if_neg (fun hand => absurd hand.1 (by omega)), if_neg (by simp [hperm])]
  · intro hzero
    rw [processCommandBasic_call p t d cmd hg hc,
        basicCallRule_capture _ cap hs hne, if_neg (by omega)]

/-- Concrete instance of C6: "call bob" with the permission flag cleared
asks for contacts permission in the contacts-enabled variant, and asks
for a number in the basic variant. -/
theorem claim6_name_unavailable_witness :
    processCommandContacts envDenied "call bob"
      = ⟨"To call by name, I need contacts permission. Please enable it in settings.",
         .none⟩ ∧
    processCommandBasic .android "t" "d" "call bob"
      = ⟨"Could not find a valid number for bob. Please specify a number or a contact with a known number.",
         .none⟩ := by
  have h := claim6_name_unavailable "call bob" envDenied .android "t" "d"
    ("bob".toList) (by decide) (by decide) (by decide) (by decide)
  exact ⟨h.1 (by decide) rfl, h.2 (by decide)⟩


/-! ## Claim C8 -/

/-- Claim C8: the interpreter is pure and stateless — it is embedded as a
function holding no state between invocations, so invoking it twice on
the same utterance trivially yields the same pair, and, substantively,
its result depends only on the utterance and the external state it
reads: two contacts environments agreeing on the permission flag and on
every lookup result produce identical response/action pairs (the basic
variant reads its external state — platform and clock strings — only
through its explicit arguments, so the same holds definitionally). -/
theorem claim8_purity (env env2 : ContactsEnv) (cmd : String)
    (hperm : env.contactsPermissionGranted = env2.contactsPermissionGranted)
    (hlook : ∀ s, env.getContacts s = env2.getContacts s) :
    processCommandContacts env cmd = processCommandContacts env2 cmd := by
  obtain ⟨b, f⟩ := env
  obtain ⟨b2, f2⟩ := env2
  have hb : b = b2 := hperm
  have hf : f = f2 := funext hlook
  rw [hb, hf]

/-- Concrete instance of C8: two distinct but pointwise-equal contacts
environments yield the same result on the same utterance. -/
theorem claim8_purity_witness :
    processCommandContacts envEmpty "call bob"
      = processCommandContacts ⟨true, fun _ => .ok []⟩ "call bob" :=
  claim8_purity envEmpty ⟨true, fun _ => .ok []⟩ "call bob" rfl (fun _ => rfl)

/-! ## Claim C9 -/

/-- Claim C9 as stated is refuted: the part of the utterance echoed back
in the response is not in its original case.  For "Call BOB" the basic
variant's response embeds the lowercased target "bob" and nowhere
contains "BOB", because the regex capture is taken from the lowercased
command. -/
theorem claim9_counterexample :
    (processCommandBasic .android "t" "d" "Call BOB").response
      = "Could not find a valid number for bob. Please specify a number or a contact with a known number."
    ∧ includesL ((processCommandBasic .android "t" "d" "Call BOB").response).toList
        "BOB" = false
    ∧ includesL ((processCommandBasic .android "t" "d" "Call BOB").response).toList
        "bob" = true := by
  decide

/-- Claim C9 as amended: rule matching and all response construction
operate on the lowercased utterance — the interpreter's whole result in
both variants depends only on the lowercase form of the input, so
echoed fragments (such as the call target) appear lowercased; the
original-case text survives only in the UI's separate display of the raw
command, outside the interpreter. -/
theorem claim9_lowercase_matching (cmd cmd2 : String) (env : ContactsEnv)
    (p : PlatformOS) (t d : String)
    (h : toLowerJs cmd = toLowerJs cmd2) :
    processCommandContacts env cmd = processCommandContacts env cmd2 ∧
    processCommandBasic p t d cmd = processCommandBasic p t d cmd2 := by
  constructor
  · simp only [processCommandContacts, h]
  · simp only [processCommandBasic, h]

/-- Concrete instance of the amended C9: "Call BOB" and "call bob" have
the same lowercasing and therefore the same interpretation. -/
theorem claim9_lowercase_matching_witness :
    processCommandContacts envEmpty "Call BOB"
      = processCommandContacts envEmpty "call bob" ∧
    processCommandBasic .android "t" "d" "Call BOB"
      = processCommandBasic .android "t" "d" "call bob" :=
  claim9_lowercase_matching "Call BOB" "call bob" envEmpty .android "t" "d"
    (by decide)

/-! ## Claim C10 -/

/-- Claim C10: when the lowercased utterance lacks the greeting triggers
but contains "call" anywhere — also inside a longer word — both variants
take the call rule, whose target is capture group 1 of
`/call\s+(.+)/`: the text after the first occurrence of "call" that is
followed by whitespace.  In particular "recall the plan" captures
"the plan" ("call" inside "recall"), "xx call bob call alice" captures
everything after the first qualifying "call", and "recall the plan" is
handled as a request to call "the plan" by both variants. -/
theorem claim10_call_substring (cmd : String) (env : ContactsEnv)
    (p : PlatformOS) (t d : String)
    (hg : (includesL (toLowerJs cmd).toList "hello"
           || includesL (toLowerJs cmd).toList "hi doro") = false)
    (hc : includesL (toLowerJs cmd).toList "call" = true) :
    processCommandContacts env cmd = contactsCallRule env (toLowerJs cmd).toList ∧
    processCommandBasic p t d cmd = basicCallRule (toLowerJs cmd).toList ∧
    scanCapture "call".toList (toLowerJs "recall the plan").toList
      = some ("the plan".toList) ∧
    scanCapture "call".toList (toLowerJs "xx call bob call alice").toList
      = some ("bob call alice".toList) ∧
    processCommandBasic p t d "recall the plan"
      = ⟨"Could not find a valid number for the plan. Please specify a number or a contact with a known number.",
         .none⟩ ∧
    processCommandContacts envEmpty "recall the plan"
      = ⟨"Could not find a contact named the plan. Please try again or say the number.",
         .none⟩ := by
  refine ⟨processCommandContacts_call env cmd hg hc,
          processCommandBasic_call p t d cmd hg hc,
          by decide, by decide, ?_, by decide⟩
  cases p <;> rfl

/-- Concrete instance of C10 at the utterance "recall the plan", whose
"call" occurs inside the word "recall". -/
theorem claim10_call_substring_witness :
    processCommandContacts envEmpty "recall the plan"
      = contactsCallRule envEmpty (toLowerJs "recall the plan").toList ∧
    processCommandBasic .android "t" "d" "recall the plan"
      = basicCallRule (toLowerJs "recall the plan").toList :=
  ⟨(claim10_call_substring "recall the plan" envEmpty .android "t" "d"
      (by decide) (by decide)).1,
   (claim10_call_substring "recall the plan" envEmpty .android "t" "d"
      (by decide) (by decide)).2.1⟩

end Doro
